import Mathlib

/-
Verification development for the AI novel-writing backend.

The definitions below are a shallow embedding of the relevant Python code:

  * backend/services/enhanced_generation_service.py
      (EnhancedGenerationService: generate_chapter_enhanced,
       _assess_content_quality, _adjust_prompt_for_quality_issues,
       _save_chapter_revision, _generate_chapter_stream_enhanced)
  * backend/services/generation_service.py
      (GenerationService: generate_outline, _parse_outline,
       _save_outline_to_db, _save_chapter_revision)
  * backend/services/context_service.py (ContextService.get_story_context)
  * backend/models/chapter.py (Chapter, ChapterRevision)
  * backend/services/ai_providers/base.py (error taxonomy)

Conventions of the embedding:
  * Python strings are `List Char`; `str s` converts a Lean string literal.
  * Python float arithmetic is idealised as exact rational arithmetic (ℚ);
    the quality scores and penalties in the source are decimal constants.
  * Database rows are records, the database is lists of rows; SQLAlchemy
    queries become list lookups and the commit discipline is ignored
    (each service method is modelled as a function from database to
    database).
  * The AI provider is external nondeterminism: a call outcome (generated
    text or a raised error, one per attempt) is a parameter.
-/

namespace NovelApp

/-! ## Python string primitives -/

/-- Characters Python treats as whitespace for `str.split()` / `str.strip()`
(ASCII subset: space, tab, newline, carriage return, vertical tab, form feed). -/
def pyIsSpace (c : Char) : Bool :=
  c = ' ' ∨ c = '\t' ∨ c = '\n' ∨ c = '\r' ∨ c = Char.ofNat 11 ∨ c = Char.ofNat 12

/-- Convert a Lean string literal into the `List Char` representation. -/
def str (s : String) : List Char := s.data

/-- The double-quote character `"` (written via its code point to keep
string literals in this file simple). -/
def quoteChar : Char := Char.ofNat 34

/-- The apostrophe character. -/
def apoChar : Char := Char.ofNat 39

/-- Python `str.lower()` (ASCII). -/
def pyLower (cs : List Char) : List Char := cs.map Char.toLower

/-- Python `str.strip()`: drop whitespace from both ends. -/
def pyStrip (cs : List Char) : List Char :=
  ((cs.dropWhile pyIsSpace).reverse.dropWhile pyIsSpace).reverse

/-- Helper for `pySplitWs`: accumulate the current word (reversed). -/
def pySplitWsAux : List Char → List Char → List (List Char)
  | [], acc => if acc = [] then [] else [acc.reverse]
  | c :: cs, acc =>
      if pyIsSpace c then
        if acc = [] then pySplitWsAux cs [] else acc.reverse :: pySplitWsAux cs []
      else
        pySplitWsAux cs (c :: acc)

/-- Python `str.split()` with no separator: split on runs of whitespace,
discarding empty pieces. -/
def pySplitWs (cs : List Char) : List (List Char) := pySplitWsAux cs []

/-- Python `len(s.split())` — the word count used throughout the services. -/
def pyWordCount (cs : List Char) : Nat := (pySplitWs cs).length

/-- Worker for `splitOnSeq`: `skip` counts separator characters still to be
consumed after a match, `acc` holds the current piece reversed. -/
def splitOnSeqGo (sep : List Char) : List Char → Nat → List Char → List (List Char)
  | [], _, acc => [acc.reverse]
  | _ :: cs, k + 1, acc => splitOnSeqGo sep cs k acc
  | c :: cs, 0, acc =>
      if sep.isPrefixOf (c :: cs) then
        acc.reverse :: splitOnSeqGo sep cs (sep.length - 1) []
      else
        splitOnSeqGo sep cs 0 (c :: acc)

/-- Python `s.split(sep)` for a non-empty separator `sep`: split at each
leftmost non-overlapping occurrence, keeping empty pieces. -/
def splitOnSeq (sep cs : List Char) : List (List Char) :=
  splitOnSeqGo sep cs 0 []

/-- Python `needle in hay` (substring containment). -/
def containsSub (needle : List Char) : List Char → Bool
  | [] => needle.isEmpty
  | c :: cs => needle.isPrefixOf (c :: cs) || containsSub needle cs

/-- Worker for `countOccurrences`: `skip` counts characters of a matched
occurrence still to be consumed. -/
def countOccurrencesGo (needle : List Char) : List Char → Nat → Nat
  | [], _ => 0
  | _ :: cs, k + 1 => countOccurrencesGo needle cs k
  | c :: cs, 0 =>
      if needle.isPrefixOf (c :: cs) then
        countOccurrencesGo needle cs (needle.length - 1) + 1
      else
        countOccurrencesGo needle cs 0

/-- Python `hay.count(needle)` for a non-empty `needle`: number of
non-overlapping occurrences, scanning left to right. -/
def countOccurrences (needle cs : List Char) : Nat :=
  countOccurrencesGo needle cs 0

/-- Python `int(digit_string)` on a string of ASCII digits. -/
def digitsToNat (ds : List Char) : Nat :=
  ds.foldl (fun a c => a * 10 + (c.toNat - 48)) 0

/-- Python `str(n)` / f-string interpolation of a natural number. -/
def natToDigits (n : Nat) : List Char := (Nat.repr n).data

/-! ## Quality assessor

Embedding of `EnhancedGenerationService._assess_content_quality`
(enhanced_generation_service.py, lines 368-420).  The Python starts from a
score of 1.0, subtracts each penalty in turn, and clamps once at the end;
over ℚ that is `max 0 (min 1 (1 - sum of penalties))`, so each penalty is
given as a named definition and subtracted below.  The `previous_chapters`
argument of the Python method is unused in its body and is omitted. -/

/-- The fixed catalog of banned phrases from `_assess_content_quality`.
(The phrase containing an apostrophe is assembled via `apoChar`.) -/
def bannedPhrases : List (List Char) :=
  [str "little did", str "unbeknownst", str "time seemed to slow",
   str "heart pounded", str "blood ran cold", str "breath caught",
   str "world spun", str "chill ran down", str "wave of", str "washed over",
   str "couldn" ++ [apoChar] ++ str "t help but", str "deep inside told"]

/-- Length penalty: `0.3 * (0.7 - r) / 0.7` when the length proportion `r`
(word count over target) is below 0.7, `0.1 * (0.9 - r) / 0.2` when it is in
[0.7, 0.9), and 0 otherwise. -/
def lengthPenalty (r : ℚ) : ℚ :=
  if r < 7/10 then 3/10 * (7/10 - r) / (7/10)
  else if r < 9/10 then 1/10 * (9/10 - r) / (2/10)
  else 0

/-- Total deduction from the banned-phrase loop: the Python subtracts 0.04
from the score for each catalog phrase that occurs in the lowercased content
(a membership test per phrase, `if phrase in content_lower`). -/
def bannedPenalty (contentLower : List Char) : ℚ :=
  bannedPhrases.foldl (fun acc p => if containsSub p contentLower then acc + 4/100 else acc) 0

/-- `sentence_starts`: split the content on periods, strip each piece, drop
empty pieces, and keep the first 10 characters of each. -/
def sentenceStarts (content : List Char) : List (List Char) :=
  (((splitOnSeq [Char.ofNat 46] content).map pyStrip).filter (· ≠ [])).map (List.take 10)

/-- Sentence-start diversity penalty: with `d = distinct starts / starts`,
deduct `0.2 * (0.8 - d) / 0.8` when `d < 0.8`; skipped entirely when there
are no non-empty sentences. -/
def diversityPenalty (content : List Char) : ℚ :=
  let starts := sentenceStarts content
  if starts.length = 0 then 0
  else
    let d : ℚ := (starts.dedup.length : ℚ) / (starts.length : ℚ)
    if d < 8/10 then 2/10 * (8/10 - d) / (8/10) else 0

/-- `dialogue_count = content.count('"')`. -/
def dialogueCount (content : List Char) : Nat := content.count quoteChar

/-- Dialogue-presence penalty: `0.15 * (4 - n) / 4` when the quotation-mark
count `n` is below 4. -/
def dialoguePenalty (content : List Char) : ℚ :=
  let n := dialogueCount content
  if n < 4 then 15/100 * ((4 : ℚ) - (n : ℚ)) / 4 else 0

/-- `paragraphs`: split on blank-line boundaries (`"\n\n"`), strip each
piece, keep the non-empty ones. -/
def paragraphsOf (content : List Char) : List (List Char) :=
  ((splitOnSeq (str "\n\n") content).map pyStrip).filter (· ≠ [])

/-- Paragraph-structure penalty: `0.15 * (6 - n) / 6` when the non-empty
paragraph count `n` is below 6. -/
def paragraphPenalty (content : List Char) : ℚ :=
  let n := (paragraphsOf content).length
  if n < 6 then 15/100 * ((6 : ℚ) - (n : ℚ)) / 6 else 0

/-- `max(0.0, min(1.0, x))`, written with explicit comparisons so that it
evaluates inside the kernel. -/
def clamp01 (x : ℚ) : ℚ :=
  if x ≤ 0 then 0 else if 1 ≤ x then 1 else x

/-- `_assess_content_quality(content, target_word_count)`: 1.0 minus the
five penalties, clamped to [0, 1] (`max(0.0, min(1.0, score))`). -/
def assessContentQuality (content : List Char) (targetWordCount : ℚ) : ℚ :=
  clamp01
    (1 - lengthPenalty ((pyWordCount content : ℚ) / targetWordCount)
       - bannedPenalty (pyLower content)
       - diversityPenalty content
       - dialoguePenalty content
       - paragraphPenalty content)

/-- The corrective directive lines appended by
`_adjust_prompt_for_quality_issues` when the score is below 0.6
(the leading empty string mirrors the `""` first element of
`adjustments`). -/
def qualityAdjustmentLines : List (List Char) :=
  [[],
   str "CRITICAL QUALITY ISSUES DETECTED - MANDATORY FIXES:",
   str "- MUST reach the target word count through detailed scenes, not summary",
   str "- ABSOLUTELY FORBIDDEN to use any clichéd phrases or AI-typical expressions",
   str "- REQUIRED: Include substantial dialogue with character-specific voices",
   str "- ESSENTIAL: Create multiple distinct scenes with detailed descriptions",
   str "- MANDATORY: Vary sentence structure and paragraph length significantly"]

/-- `_adjust_prompt_for_quality_issues(original_prompt, quality_score)`:
appends `"\n".join(adjustments)` to the prompt, where `adjustments` is the
directive list when `quality_score < 0.6` and empty otherwise. -/
def adjustPromptForQualityIssues (originalPrompt : List Char) (qualityScore : ℚ) : List Char :=
  let adjustments := if qualityScore < 6/10 then qualityAdjustmentLines else []
  originalPrompt ++ List.intercalate (str "\n") adjustments

/-! ## Data model

Records mirror the SQLAlchemy models (models/story.py, character.py,
world_element.py, chapter.py); JSON columns are idealised as association
lists, autoincrement primary keys of revisions are omitted (no code under
verification reads them). -/

structure StoryRec where
  storyId : Nat
  title : List Char
  description : Option (List Char)
  genre : Option (List Char)
  targetWordCount : Option Nat
  targetChapters : Option Nat
deriving DecidableEq

structure CharacterRec where
  characterId : Nat
  storyId : Nat
  name : List Char
  role : Option (List Char)
  profile : Option (List Char)
  traits : List (List Char × List Char)
  arc : Option (List Char)
  appearance : Option (List Char)
  personality : Option (List Char)
  background : Option (List Char)
  motivations : Option (List Char)
deriving DecidableEq

structure WorldElementRec where
  elementId : Nat
  storyId : Nat
  type : List Char
  name : List Char
  description : Option (List Char)
  meta : List (List Char × List Char)
  category : Option (List Char)
  importance : Option (List Char)
deriving DecidableEq

structure ActRec where
  actId : Nat
  storyId : Nat
  number : Nat
  title : Option (List Char)
  summary : Option (List Char)
deriving DecidableEq

structure ChapterRec where
  chapterId : Nat
  storyId : Nat
  actId : Option Nat
  number : Nat
  title : Option (List Char)
  summary : Option (List Char)
  content : Option (List Char)
  isGenerated : Bool
  isApproved : Bool
  wordCount : Nat
deriving DecidableEq

/-- A row of `chapter_revisions` (ChapterRevision). -/
structure ChapterRevisionRec where
  chapterId : Nat
  revisionNumber : Nat
  content : List Char
  summary : Option (List Char)
  notes : List Char
deriving DecidableEq

/-- The database: lists of rows, in insertion order (SQLAlchemy `.first()`
without an ORDER BY returns the earliest inserted matching row here). -/
structure Db where
  stories : List StoryRec
  characters : List CharacterRec
  worldElements : List WorldElementRec
  acts : List ActRec
  chapters : List ChapterRec
  chapterRevisions : List ChapterRevisionRec
deriving DecidableEq

/-- `db.query(Story).filter(Story.story_id == id).first()`. -/
def findStory (db : Db) (storyId : Nat) : Option StoryRec :=
  db.stories.find? (fun s => s.storyId == storyId)

/-- `db.query(Chapter).filter(story_id == sid, number == n).first()`. -/
def findChapter (db : Db) (storyId number : Nat) : Option ChapterRec :=
  db.chapters.find? (fun c => c.storyId == storyId && c.number == number)

/-- Python truthiness of a nullable text column: `None` and `""` are falsy. -/
def contentTruthy : Option (List Char) → Bool
  | none => false
  | some c => !c.isEmpty

/-- `Chapter.update_word_count()`. -/
def updateWordCount (ch : ChapterRec) : ChapterRec :=
  match ch.content with
  | some c => if c.isEmpty then {ch with wordCount := 0} else {ch with wordCount := pyWordCount c}
  | none => {ch with wordCount := 0}

/-- The revision number assigned by `_save_chapter_revision`: the code takes
the first row ordered by `revision_number` descending — the maximum — and
adds 1, or starts at 1 when there is no row; over ℕ both cases equal
(fold of `max` over the numbers, defaulting to 0) + 1. -/
def nextRevisionNumber (revs : List ChapterRevisionRec) : Nat :=
  (revs.map (fun r => r.revisionNumber)).foldr max 0 + 1

/-- `_save_chapter_revision(chapter)` (identical in generation_service.py and
enhanced_generation_service.py): no-op when the chapter has no content,
otherwise append a snapshot numbered `lastRevisionNumber + 1`. -/
def saveChapterRevision (db : Db) (ch : ChapterRec) : Db :=
  if contentTruthy ch.content then
    {db with chapterRevisions := db.chapterRevisions ++
      [{chapterId := ch.chapterId,
        revisionNumber :=
          nextRevisionNumber (db.chapterRevisions.filter (fun r => r.chapterId == ch.chapterId)),
        content := ch.content.getD [],
        summary := ch.summary,
        notes := str "Auto-saved before regeneration"}]}
  else db

/-- Replace the first element satisfying `p` by its image under `f`
(mutation of the row object returned by `.first()`). -/
def updateFirst (p : α → Bool) (f : α → α) : List α → List α
  | [] => []
  | x :: xs => if p x then f x :: xs else x :: updateFirst p f xs

/-- The save block shared by the non-streaming and streaming chapter
generation paths: look up the chapter; if present, snapshot its prior
content (when truthy), then overwrite content, set `is_generated`, and
recompute the word count. -/
def persistChapter (db : Db) (storyId chapterNumber : Nat) (text : List Char) : Db :=
  match findChapter db storyId chapterNumber with
  | none => db
  | some ch =>
      let db := if contentTruthy ch.content then saveChapterRevision db ch else db
      let newChapters :=
        updateFirst (fun c => c.storyId == storyId && c.number == chapterNumber)
          (fun c => updateWordCount {c with content := some text, isGenerated := true})
          db.chapters
      {db with chapters := newChapters}

/-! ## Generation backend outcomes

The AI provider is external: each call either returns generated text or
raises one of the `AIProviderError` subclasses of ai_providers/base.py.
`generate_chapter_enhanced` handles every subclass through the single
`except AIProviderError` clause. -/

/-- The `AIProviderError` hierarchy: the base class and its three
subclasses (`AIProviderUnavailableError`, `AIProviderRateLimitError`,
`AIProviderAuthError`). -/
inductive ProviderErrorKind
  | providerError
  | unavailable
  | rateLimited
  | auth
deriving DecidableEq

/-- Outcome of one `generate_text` call. -/
inductive ProviderOutcome
  | ok (text : List Char) (tokensUsed : Nat)
  | err (kind : ProviderErrorKind) (msg : List Char)
deriving DecidableEq

/-! ## `generate_chapter_enhanced` (enhanced_generation_service.py 69-147)

The prompt template call inside the loop has only loop-invariant arguments
(context, previous chapters, complexity, target), so its output is a fixed
`basePrompt` parameter; when a `custom_prompt` is supplied, `basePrompt` is
that prompt — in both cases the top of each loop iteration reassigns
`prompt` to `basePrompt`.  The provider is a function from the attempt
index to that attempt's outcome.  The run also returns a trace: the prompt
sent on each `generate_text` call, and the seconds slept by each
`asyncio.sleep(2 ** attempt)` backoff. -/

def maxRegenerationAttempts : Nat := 3

def qualityThreshold : ℚ := 7/10

structure GenResult where
  success : Bool
  chapterContent : List Char
  wordCount : Nat
  qualityScore : Option ℚ
  tokensUsed : Option Nat
  attempts : Nat
  errorKind : Option ProviderErrorKind
deriving DecidableEq

structure GenTrace where
  requests : List (List Char)
  sleeps : List Nat
deriving DecidableEq

/-- The `for attempt in range(self.max_regeneration_attempts)` loop.  `fuel`
is the number of remaining iterations (the fuel-0 case is the unreachable
`return` after the loop), `attempt` the current index, and the third
argument the value of the `prompt` variable entering the iteration — which
the iteration immediately overwrites with `basePrompt`, exactly as the
source recomputes `prompt` from `custom_prompt`/the template at the top
of every iteration body. -/
def genLoop (basePrompt : List Char) (provider : Nat → ProviderOutcome)
    (qualityCheck : Bool) (targetWordCount : Nat) (storyId chapterNumber : Nat) :
    Nat → Nat → List Char → Db → List (List Char) → List Nat →
    GenResult × Db × GenTrace
  | 0, _, _, db, reqs, sleeps =>
      ({success := false, chapterContent := [], wordCount := 0, qualityScore := none,
        tokensUsed := none, attempts := maxRegenerationAttempts, errorKind := none},
       db, ⟨reqs, sleeps⟩)
  | fuel + 1, attempt, _promptIn, db, reqs, sleeps =>
      let prompt := basePrompt
      let reqs := reqs ++ [prompt]
      match provider attempt with
      | .ok text tok =>
          if qualityCheck = true ∧
             assessContentQuality text (targetWordCount : ℚ) < qualityThreshold ∧
             attempt < maxRegenerationAttempts - 1 then
            genLoop basePrompt provider qualityCheck targetWordCount storyId chapterNumber
              fuel (attempt + 1)
              (adjustPromptForQualityIssues prompt
                (assessContentQuality text (targetWordCount : ℚ)))
              db reqs sleeps
          else
            ({success := true, chapterContent := text, wordCount := pyWordCount text,
              qualityScore :=
                if qualityCheck then some (assessContentQuality text (targetWordCount : ℚ))
                else none,
              tokensUsed := some tok, attempts := attempt + 1, errorKind := none},
             persistChapter db storyId chapterNumber text, ⟨reqs, sleeps⟩)
      | .err kind _ =>
          if attempt = maxRegenerationAttempts - 1 then
            ({success := false, chapterContent := [], wordCount := 0, qualityScore := none,
              tokensUsed := none, attempts := attempt + 1, errorKind := some kind},
             db, ⟨reqs, sleeps⟩)
          else
            genLoop basePrompt provider qualityCheck targetWordCount storyId chapterNumber
              fuel (attempt + 1) prompt db reqs (sleeps ++ [2 ^ attempt])

/-- `generate_chapter_enhanced` for the non-streaming path, from the top of
the retry loop (context assembly checked the chapter exists beforehand). -/
def generateChapterEnhanced (basePrompt : List Char) (provider : Nat → ProviderOutcome)
    (qualityCheck : Bool) (targetWordCount : Nat) (storyId chapterNumber : Nat)
    (db : Db) : GenResult × Db × GenTrace :=
  genLoop basePrompt provider qualityCheck targetWordCount storyId chapterNumber
    maxRegenerationAttempts 0 [] db [] []

/-! ## `ContextService.get_story_context` (context_service.py 33-60)

The Python returns a dict: the empty dict `{}` when the story id does not
resolve, and a populated context otherwise — modelled as `Option`, with
`none` standing for `{}`.  No exception is raised on a missing story. -/

structure StoryInfoCtx where
  title : List Char
  description : Option (List Char)
  genre : Option (List Char)
  targetWordCount : Option Nat
  targetChapters : Option Nat
deriving DecidableEq

structure CharacterCtx where
  name : List Char
  role : Option (List Char)
  personality : Option (List Char)
  motivations : Option (List Char)
  arc : Option (List Char)
  traits : List (List Char × List Char)
deriving DecidableEq

structure WorldElementCtx where
  name : List Char
  description : Option (List Char)
  category : Option (List Char)
  importance : Option (List Char)
  meta : List (List Char × List Char)
deriving DecidableEq

structure OutlineChapterCtx where
  number : Nat
  title : Option (List Char)
  summary : Option (List Char)
  isGenerated : Bool
  wordCount : Nat
deriving DecidableEq

structure StoryContextData where
  story : StoryInfoCtx
  characters : List CharacterCtx
  worldElements : List (List Char × List WorldElementCtx)
  outline : List OutlineChapterCtx
deriving DecidableEq

/-- `_get_characters_context`. -/
def charactersContext (db : Db) (storyId : Nat) : List CharacterCtx :=
  (db.characters.filter (fun c => c.storyId == storyId)).map (fun c =>
    {name := c.name, role := c.role, personality := c.personality,
     motivations := c.motivations, arc := c.arc, traits := c.traits})

/-- Insert a world element under its type key, preserving first-seen key
order (Python dict insertion order). -/
def insertGrouped (key : List Char) (v : WorldElementCtx) :
    List (List Char × List WorldElementCtx) → List (List Char × List WorldElementCtx)
  | [] => [(key, [v])]
  | (k, vs) :: rest =>
      if k = key then (k, vs ++ [v]) :: rest else (k, vs) :: insertGrouped key v rest

/-- `_get_world_elements_context`: elements of the story grouped by type. -/
def worldElementsContext (db : Db) (storyId : Nat) :
    List (List Char × List WorldElementCtx) :=
  (db.worldElements.filter (fun e => e.storyId == storyId)).foldl
    (fun acc e =>
      insertGrouped e.type
        {name := e.name, description := e.description, category := e.category,
         importance := e.importance, meta := e.meta} acc)
    []

/-- Stable insertion by chapter number (SQL `ORDER BY number`). -/
def insertByNumber (c : ChapterRec) : List ChapterRec → List ChapterRec
  | [] => [c]
  | x :: xs => if c.number < x.number then c :: x :: xs else x :: insertByNumber c xs

/-- Stable sort of chapters by number (insertion sort). -/
def sortByNumber (l : List ChapterRec) : List ChapterRec :=
  l.foldr insertByNumber []

/-- `_get_outline_context`: all chapters of the story ordered by number. -/
def outlineContext (db : Db) (storyId : Nat) : List OutlineChapterCtx :=
  (sortByNumber (db.chapters.filter (fun c => c.storyId == storyId))).map (fun ch =>
    {number := ch.number, title := ch.title, summary := ch.summary,
     isGenerated := ch.isGenerated, wordCount := ch.wordCount})

/-- `get_story_context(story_id)`: `{}` (here `none`) when the story does
not exist; otherwise the assembled context. -/
def getStoryContext (db : Db) (storyId : Nat) : Option StoryContextData :=
  match findStory db storyId with
  | none => none
  | some story =>
      some {story := {title := story.title, description := story.description,
                      genre := story.genre, targetWordCount := story.targetWordCount,
                      targetChapters := story.targetChapters},
            characters := charactersContext db storyId,
            worldElements := worldElementsContext db storyId,
            outline := outlineContext db storyId}

/-! ## `GenerationService._parse_outline` (generation_service.py 341-427)

Hand-compiled forms of the two anchored regular expressions
`(?:ACT\s+)?([IVX]+|[0-9]+)[:.]?\s*(.*)` and
`(?:Chapter\s+)?([0-9]+)[:.]?\s*(.*)` (both IGNORECASE), and of the
markdown-bold removal `re.sub(r'\*\*([^*]+)\*\*', r'\1', line)`.  In each
regex the tail `[:.]?\s*(.*)` always succeeds, so the only backtracking the
engine performs is abandoning the optional keyword prefix when the
number/numeral group cannot match after it. -/

/-- Case-insensitive `[IVX]` character class. -/
def ivxCh (c : Char) : Bool :=
  let l := c.toLower
  l = 'i' ∨ l = 'v' ∨ l = 'x'

/-- Match the anchored tail `([IVX]+|[0-9]+)[:.]?\s*(.*)` (with the roman
alternative only for the act pattern): returns (group 1, group 2). -/
def numTokenMatch (useRoman : Bool) (cs : List Char) : Option (List Char × List Char) :=
  let run :=
    if useRoman then
      let r := cs.takeWhile ivxCh
      if r ≠ [] then r else cs.takeWhile Char.isDigit
    else cs.takeWhile Char.isDigit
  if run = [] then none
  else
    let rest := cs.drop run.length
    let rest :=
      match rest with
      | c :: t => if c = ':' ∨ c = '.' then t else c :: t
      | [] => []
    some (run, rest.dropWhile pyIsSpace)

/-- Match a case-insensitive literal keyword followed by `\s+`; on success
return what follows the whitespace run. -/
def keywordWsMatch (keyword : List Char) (cs : List Char) : Option (List Char) :=
  if (cs.take keyword.length).map Char.toLower = keyword then
    let after := cs.drop keyword.length
    let ws := after.takeWhile pyIsSpace
    if ws = [] then none else some (after.drop ws.length)
  else none

/-- `re.match` for the act pattern: try the `ACT\s+` prefix first, fall back
to matching the groups at the start of the line. -/
def actLineMatch (cs : List Char) : Option (List Char × List Char) :=
  match keywordWsMatch (str "act") cs with
  | some rest =>
      match numTokenMatch true rest with
      | some m => some m
      | none => numTokenMatch true cs
  | none => numTokenMatch true cs

/-- `re.match` for the chapter pattern (`Chapter\s+` prefix optional,
digits only). -/
def chapterLineMatch (cs : List Char) : Option (List Char × List Char) :=
  match keywordWsMatch (str "chapter") cs with
  | some rest =>
      match numTokenMatch false rest with
      | some m => some m
      | none => numTokenMatch false cs
  | none => numTokenMatch false cs

/-- Fuel-indexed worker for `mdSub`; the fuel (initially the input length,
always sufficient since every step consumes at least one character) keeps
the recursion structural so that it evaluates in the kernel. -/
def mdSubGo : Nat → List Char → List Char
  | 0, cs => cs
  | _ + 1, [] => []
  | n + 1, c :: cs =>
      if c = '*' ∧ cs.head? = some '*' then
        let body := (cs.drop 1).takeWhile (fun x => x ≠ '*')
        let rest := (cs.drop 1).drop body.length
        if body ≠ [] ∧ (rest.drop 1).head? = some '*' then
          body ++ mdSubGo n (rest.drop 2)
        else c :: mdSubGo n cs
      else c :: mdSubGo n cs

/-- `re.sub(r'\*\*([^*]+)\*\*', r'\1', line)`: replace each leftmost
non-overlapping `**text**` (text non-empty, without `*`) by `text`.  After
the maximal `[^*]`-run, the following character is `*` or absent, so a
match only further needs the character after that run's first `*` to be `*`
again. -/
def mdSub (cs : List Char) : List Char := mdSubGo cs.length cs

/-- An act dict built by the parser. -/
structure ActD where
  number : Nat
  title : List Char
  summary : List Char
deriving DecidableEq

/-- A chapter dict built by the parser. -/
structure ChapterD where
  number : Nat
  title : List Char
  summary : List Char
  actNumber : Option Nat
deriving DecidableEq

/-- Parser state: `current_act` (when set) is the last element of `acts`
and `current_act_number` equals `acts.length`; `current_chapter` (when set)
is the last element of `chapters`. -/
structure ParseState where
  acts : List ActD
  chapters : List ChapterD
  hasCurrentAct : Bool
  hasCurrentChapter : Bool
deriving DecidableEq

/-- Apply `f` to the last element of the list (mutation of the dict that
`current_act` / `current_chapter` aliases). -/
def updateLast (f : α → α) : List α → List α
  | [] => []
  | [x] => [f x]
  | x :: y :: xs => x :: updateLast f (y :: xs)

/-- `summary += " " + clean_line` with the empty-summary special case. -/
def appendedSummary (old line : List Char) : List Char :=
  if old ≠ [] then old ++ str " " ++ line else line

/-- One iteration of the line loop of `_parse_outline`. -/
def processOutlineLine (st : ParseState) (rawLine : List Char) : ParseState :=
  let line := pyStrip rawLine
  if line = [] then st
  else
    let cleanLine := pyStrip (mdSub line)
    if (actLineMatch cleanLine).isSome ∧
       (containsSub (str "act") (pyLower line) ∨ containsSub (str "ACT") line) then
      let g2 := ((actLineMatch cleanLine).getD ([], [])).2
      let n := st.acts.length + 1
      let actTitle := if pyStrip g2 ≠ [] then pyStrip g2 else str "Act " ++ natToDigits n
      {st with acts := st.acts ++ [{number := n, title := actTitle, summary := []}],
               hasCurrentAct := true, hasCurrentChapter := false}
    else if (chapterLineMatch cleanLine).isSome ∧
            (containsSub (str "chapter") (pyLower line) ∨ containsSub (str "Chapter") line) then
      let m := (chapterLineMatch cleanLine).getD ([], [])
      {st with chapters := st.chapters ++
        [{number := digitsToNat m.1, title := pyStrip m.2, summary := [],
          actNumber := if st.hasCurrentAct then some st.acts.length else none}],
               hasCurrentChapter := true}
    else if (str "*In Act").isPrefixOf line ∨ (str "*In this act").isPrefixOf line then
      if st.hasCurrentAct then
        {st with acts :=
          updateLast (fun a => {a with summary := appendedSummary a.summary cleanLine}) st.acts}
      else st
    else if st.hasCurrentChapter = true ∧ cleanLine ≠ [] ∧
            ¬ (str "---").isPrefixOf cleanLine then
      {st with chapters :=
        updateLast (fun c => {c with summary := appendedSummary c.summary cleanLine}) st.chapters}
    else if st.hasCurrentAct = true ∧ cleanLine ≠ [] ∧
            ¬ (str "---").isPrefixOf cleanLine then
      if st.hasCurrentChapter = false then
        {st with acts :=
          updateLast (fun a => {a with summary := appendedSummary a.summary cleanLine}) st.acts}
      else st
    else st

/-- `_parse_outline(outline_text)` (its `story_id` argument is unused in
the source body): fold the line loop over `outline_text.strip().split('\n')`. -/
def parseOutline (outlineText : List Char) : ParseState :=
  (splitOnSeq (str "\n") (pyStrip outlineText)).foldl processOutlineLine
    {acts := [], chapters := [], hasCurrentAct := false, hasCurrentChapter := false}

/-! ## `generate_outline` and `_save_outline_to_db`
(generation_service.py 45-115 and 429-469) -/

/-- Fresh autoincrement id for an act row. -/
def nextActId (db : Db) : Nat :=
  (db.acts.map (fun a => a.actId)).foldr max 0 + 1

/-- Fresh autoincrement id for a chapter row. -/
def nextChapterId (db : Db) : Nat :=
  (db.chapters.map (fun c => c.chapterId)).foldr max 0 + 1

/-- One iteration of the act-creation loop of `_save_outline_to_db`:
insert the act row (fresh id) and extend the number → id map. -/
def outlineActStep (storyId : Nat) (p : Db × List (Nat × Nat)) (a : ActD) :
    Db × List (Nat × Nat) :=
  let aid := nextActId p.1
  ({p.1 with acts := p.1.acts ++
      [{actId := aid, storyId := storyId, number := a.number,
        title := some a.title, summary := some a.summary}]},
   p.2 ++ [(a.number, aid)])

/-- One iteration of the chapter-creation loop of `_save_outline_to_db`:
insert the chapter row, linked to an act id when `act_number` is truthy and
present in the map. -/
def outlineChapterStep (storyId : Nat) (actMap : List (Nat × Nat)) (d : Db) (c : ChapterD) :
    Db :=
  let actId :=
    match c.actNumber with
    | some n =>
        if n ≠ 0 then (actMap.find? (fun kv => kv.1 == n)).map (fun kv => kv.2)
        else none
    | none => none
  {d with chapters := d.chapters ++
    [{chapterId := nextChapterId d, storyId := storyId, actId := actId,
      number := c.number, title := some c.title, summary := some c.summary,
      content := none, isGenerated := false, isApproved := false, wordCount := 0}]}

/-- `_save_outline_to_db`: delete every chapter and act of the story, then
insert the parsed acts (building the act-number → act-id map) and the
parsed chapters. -/
def saveOutlineToDb (db : Db) (storyId : Nat) (outline : ParseState) : Db :=
  let db := {db with chapters := db.chapters.filter (fun c => c.storyId != storyId),
                     acts := db.acts.filter (fun a => a.storyId != storyId)}
  let dbAndMap := outline.acts.foldl (outlineActStep storyId) (db, [])
  outline.chapters.foldl (outlineChapterStep storyId dbAndMap.2) dbAndMap.1

/-- A raised `ValueError` (the only exception `generate_outline` lets
escape besides provider errors, which it catches). -/
inductive PyExn
  | valueError (msg : List Char)
deriving DecidableEq

/-- The dict returned by `generate_outline`. -/
structure OutlineRes where
  success : Bool
  outline : Option ParseState
  rawText : Option (List Char)
  tokensUsed : Option Nat
  errorKind : Option ProviderErrorKind
deriving DecidableEq

/-- `generate_outline(story_id)`: raise `ValueError` when the story does
not exist; on a provider error return the failure dict; on provider success
parse the text, replace the stored outline, and return the success dict
with the raw text attached (prompt construction does not influence the
returned structure and is elided; the provider call outcome is the
`providerOutcome` parameter). -/
def generateOutline (db : Db) (storyId : Nat) (providerOutcome : ProviderOutcome) :
    Except PyExn (OutlineRes × Db) :=
  match findStory db storyId with
  | none => .error (.valueError (str "Story not found"))
  | some _ =>
      match providerOutcome with
      | .ok text tokens =>
          let parsed := parseOutline text
          .ok ({success := true, outline := some parsed, rawText := some text,
                tokensUsed := some tokens, errorKind := none},
               saveOutlineToDb db storyId parsed)
      | .err kind _ =>
          .ok ({success := false, outline := none, rawText := none,
                tokensUsed := none, errorKind := some kind}, db)

/-! ## `_generate_chapter_stream_enhanced`
(enhanced_generation_service.py 480-543)

The async generator is modelled as a list of instructions in program
order: one yield per received fragment, then the persistence block, then
the final `complete` yield (which reads `chapter.chapter_id` from the
post-persist database).  A consumer that pulls `n` events runs the
generator exactly up to its `n`-th yield; abandoning/cancelling the
stream after `n` events means the instructions after that yield never
execute. -/

inductive StreamEvent
  | chunkEv (content totalContent : List Char) (wordCount progress : Nat)
  | completeEv (finalContent : List Char) (wordCount : Nat) (qualityScore : ℚ)
      (chapterId : Option Nat)
deriving DecidableEq

inductive StreamInstr
  | emit (f : Db → StreamEvent)
  | stateOp (f : Db → Db)

/-- Run a generator until `n` yields have been emitted (or it ends):
state operations before the `n`-th yield execute, later ones do not. -/
def runUntilYields : List StreamInstr → Nat → Db → List StreamEvent × Db
  | _, 0, db => ([], db)
  | [], _ + 1, db => ([], db)
  | .emit f :: rest, n + 1, db =>
      let p := runUntilYields rest n db
      (f db :: p.1, p.2)
  | .stateOp f :: rest, n + 1, db => runUntilYields rest (n + 1) (f db)

/-- The per-fragment yields of the `async for` loop: each carries the
fragment, the accumulated buffer, its word count, and
`min(100, int(word_count / target * 100))` (integer floor under the
rational idealisation). -/
def chunkInstrs (target : Nat) : List (List Char) → List Char → List StreamInstr
  | [], _ => []
  | c :: cs, acc =>
      let total := acc ++ c
      .emit (fun _ => .chunkEv c total (pyWordCount total)
          (min 100 (pyWordCount total * 100 / target)))
        :: chunkInstrs target cs total

/-- The whole generator for a successful fragment stream `chunks`: the
fragment yields, then the persist block, then the `complete` yield. -/
def streamEnhancedProgram (chunks : List (List Char)) (target storyId chapterNumber : Nat) :
    List StreamInstr :=
  let total := chunks.foldl (· ++ ·) []
  chunkInstrs target chunks [] ++
    [.stateOp (fun db => persistChapter db storyId chapterNumber total),
     .emit (fun db => .completeEv total (pyWordCount total)
        (assessContentQuality total (target : ℚ))
        ((findChapter db storyId chapterNumber).map (fun c => c.chapterId)))]

/-! ## `_save_chapter_revision` iterated (for the revision-numbering
invariant) -/

/-- The revision numbers stored for one chapter, in insertion order. -/
def revisionNumbersFor (db : Db) (chapterId : Nat) : List Nat :=
  (db.chapterRevisions.filter (fun r => r.chapterId == chapterId)).map
    (fun r => r.revisionNumber)

/-- `n` successive accepts for one chapter: before the `k`-th overwrite the
orchestrator snapshots the chapter state `chs k`. -/
def iterSaves (chs : Nat → ChapterRec) (db : Db) : Nat → Db
  | 0 => db
  | n + 1 => saveChapterRevision (iterSaves chs db n) (chs n)

/-! ## Concrete instances used by witnesses and counterexamples -/

def emptyDb : Db :=
  {stories := [], characters := [], worldElements := [], acts := [],
   chapters := [], chapterRevisions := []}

/-- A database holding just the story with id 1. -/
def dbStory1 : Db :=
  {emptyDb with stories :=
    [{storyId := 1, title := str "Mist Harbor", description := none, genre := none,
      targetWordCount := some 80000, targetChapters := some 10}]}

/-- Story 1 plus a pre-existing outline row (one chapter of story 1). -/
def dbStory1Chap : Db :=
  {dbStory1 with chapters :=
    [{chapterId := 4, storyId := 1, actId := none, number := 1,
      title := some (str "Old title"), summary := some (str "Old summary"),
      content := none, isGenerated := false, isApproved := false, wordCount := 0}]}

/-- A chapter of story 1, number 1, with no content yet (target row of the
quality-gated generation run). -/
def dbGenTarget : Db :=
  {emptyDb with chapters :=
    [{chapterId := 9, storyId := 1, actId := none, number := 1,
      title := some (str "Opening"), summary := some (str "The town appears"),
      content := none, isGenerated := false, isApproved := false, wordCount := 0}]}

/-- A chapter that already holds generated content and one revision —
state that a cancelled stream must leave untouched. -/
def dbStreamTarget : Db :=
  {emptyDb with
    chapters :=
      [{chapterId := 2, storyId := 1, actId := none, number := 3,
        title := some (str "Third"), summary := none,
        content := some (str "previous draft text"), isGenerated := true,
        isApproved := false, wordCount := 3}],
    chapterRevisions :=
      [{chapterId := 2, revisionNumber := 1, content := str "first draft",
        summary := none, notes := str "Auto-saved before regeneration"}]}

/-- The chapter state snapshotted on every iteration of the
revision-numbering witness. -/
def chapterW : ChapterRec :=
  {chapterId := 7, storyId := 1, actId := none, number := 2,
   title := some (str "Second"), summary := some (str "plan"),
   content := some (str "draft text body"), isGenerated := true,
   isApproved := false, wordCount := 3}

/-- Text at full target quality: six distinct paragraphs, four quotation
marks, one sentence per paragraph with distinct starts, no banned phrase;
24 words. -/
def perfectText : List Char :=
  str "Alpha said hello there.\n\nBravo ran far away.\n\nCarol sang a song.\n\nDelta " ++
  [quoteChar, quoteChar, quoteChar, quoteChar] ++
  str " spoke well.\n\nEcho flew very high.\n\nFoxtrot dug a hole."

/-- A text containing the banned phrase "little did" twice. -/
def doubledPhraseText : List Char := str "little did little did"

/-- The base prompt of the quality-gated generation run. -/
def basePromptW : List Char := str "BASE PROMPT"

/-- The success dict returned for a generation output the parser cannot
extract anything from. -/
def outlineResZero : OutlineRes :=
  {success := true, outline := some (parseOutline (str "hello world")),
   rawText := some (str "hello world"), tokensUsed := some 5, errorKind := none}

/-- A provider returning empty text (quality 0.4) on every attempt. -/
def providerAlwaysEmpty : Nat → ProviderOutcome := fun _ => .ok [] 0

/-- A provider raising an authentication error on the first attempt and
succeeding on the second. -/
def providerAuthThenOk : Nat → ProviderOutcome := fun a =>
  if a = 0 then .err .auth (str "invalid key") else .ok (str "ok text") 7

/-! ## Helper lemmas -/

theorem foldl_ifadd (k : ℚ) (c : List Char → Bool) (ps : List (List Char)) (a : ℚ) :
    ps.foldl (fun acc p => if c p then acc + k else acc) a
      = a + k * ((ps.filter c).length : ℚ) := by
  induction ps generalizing a with
  | nil => simp
  | cons p ps ih =>
      by_cases h : c p
      · simp [h, ih]; ring
      · simp [h, ih]

/-- The banned-phrase loop deducts 0.04 exactly once per catalog phrase
present in the text. -/
theorem bannedPenalty_eq (cl : List Char) :
    bannedPenalty cl
      = 4/100 * ((bannedPhrases.filter (fun p => containsSub p cl)).length : ℚ) := by
  unfold bannedPenalty
  rw [foldl_ifadd]
  ring

/-- Evaluation of the assessor on empty text. -/
theorem assess_empty_eval (t : ℚ) (_ht : 0 < t) : assessContentQuality [] t = 2/5 := by
  have hb : (bannedPhrases.filter (fun p => containsSub p (pyLower []))).length = 0 := by decide
  unfold assessContentQuality lengthPenalty diversityPenalty dialoguePenalty paragraphPenalty
    clamp01
  rw [bannedPenalty_eq, hb]
  norm_num [show pyWordCount [] = 0 from rfl, show sentenceStarts [] = [] from rfl,
    show paragraphsOf [] = [] from rfl, show dialogueCount [] = 0 from rfl]

/-! ## C10 — empty text scores exactly 0.4 -/

/-- C10: for the empty string and any positive target word count the
quality score is exactly 0.4: the length penalty saturates at 0.3,
dialogue and paragraph penalties contribute 0.15 each, the banned-phrase
deduction is 0, and the sentence-start-diversity penalty is skipped because
there are no non-empty sentences. -/
theorem assessContentQuality_empty_text (t : ℚ) (ht : 0 < t) :
    assessContentQuality [] t = 2/5 :=
  assess_empty_eval t ht

theorem assessContentQuality_empty_text_witness :
    (0 : ℚ) < 2500 ∧ assessContentQuality [] 2500 = 2/5 :=
  ⟨by norm_num, assessContentQuality_empty_text 2500 (by norm_num)⟩

/-! ## C7 — perfect inputs score exactly 1.0 -/

/-- C7: a text whose word count equals the (positive) target, with no
banned phrase, at least 4 quotation marks, at least 6 non-empty paragraphs,
and sentence-start diversity at least 0.8 (with at least one sentence),
is assessed at exactly 1.0. -/
theorem assessContentQuality_perfect_inputs (content : List Char) (target : ℚ)
    (hpos : 0 < target)
    (hwc : (pyWordCount content : ℚ) = target)
    (hban : (bannedPhrases.filter (fun p => containsSub p (pyLower content))).length = 0)
    (hdia : 4 ≤ dialogueCount content)
    (hpar : 6 ≤ (paragraphsOf content).length)
    (hsen : (sentenceStarts content).length ≠ 0)
    (hdiv : (8 : ℚ)/10 ≤
      ((sentenceStarts content).dedup.length : ℚ) / ((sentenceStarts content).length : ℚ)) :
    assessContentQuality content target = 1 := by
  unfold assessContentQuality
  rw [hwc, div_self (ne_of_gt hpos), bannedPenalty_eq, hban]
  unfold lengthPenalty diversityPenalty dialoguePenalty paragraphPenalty clamp01
  rw [if_neg hsen, if_neg (not_lt.mpr hdiv), if_neg (not_lt.mpr hdia), if_neg (not_lt.mpr hpar)]
  norm_num

theorem assessContentQuality_perfect_inputs_witness :
    (pyWordCount perfectText : ℚ) = 24 ∧ dialogueCount perfectText = 4 ∧
      (paragraphsOf perfectText).length = 6 ∧
      assessContentQuality perfectText 24 = 1 := by
  refine ⟨?_, by decide, by decide, ?_⟩
  · rw [show pyWordCount perfectText = 24 from by decide]; norm_num
  · refine assessContentQuality_perfect_inputs perfectText 24 (by norm_num) ?_ (by decide)
      (by decide) (by decide) (by decide) ?_
    · rw [show pyWordCount perfectText = 24 from by decide]; norm_num
    · rw [show (sentenceStarts perfectText).dedup.length = 6 from by decide,
        show (sentenceStarts perfectText).length = 6 from by decide]
      norm_num

/-! ## C6 — length penalty at 50% of target -/

/-- C6 counterexample: at half the target length (one word against target
two — the concrete length proportion is 1/2) the length-penalty component
equals 3/35 (≈ 0.0857), not 0.3 as the claim states. -/
theorem lengthPenalty_at_half_counterexample :
    lengthPenalty ((pyWordCount (str "word") : ℚ) / 2) = 3/35 ∧ (3/35 : ℚ) ≠ 3/10 := by
  constructor
  · rw [show pyWordCount (str "word") = 1 from by decide]
    unfold lengthPenalty
    norm_num
  · norm_num

/-- C6 amended: for text whose word count is exactly 50% of the (positive)
target, the length-penalty component equals `0.3 * (0.7 - 0.5) / 0.7 = 3/35`;
the 0.3 maximum of the below-0.7 branch is attained only as the length
proportion reaches 0. -/
theorem lengthPenalty_at_half_target (content : List Char) (target : ℚ)
    (_hpos : 0 < target) (hwc : (pyWordCount content : ℚ) / target = 1/2) :
    lengthPenalty ((pyWordCount content : ℚ) / target) = 3/35 := by
  rw [hwc]
  unfold lengthPenalty
  norm_num

theorem lengthPenalty_at_half_target_witness :
    (pyWordCount (str "only one-word") : ℚ) / 4 = 1/2 ∧
      lengthPenalty ((pyWordCount (str "only one-word") : ℚ) / 4) = 3/35 := by
  have h : (pyWordCount (str "only one-word") : ℚ) / 4 = 1/2 := by
    rw [show pyWordCount (str "only one-word") = 2 from by decide]; norm_num
  exact ⟨h, lengthPenalty_at_half_target (str "only one-word") 4 (by norm_num) h⟩

/-! ## C5 — banned-phrase deduction is per phrase, not per occurrence -/

/-- C5 counterexample: a text containing the banned phrase "little did"
twice is deducted 0.04 in total for it, not 2 × 0.04 as the claim states. -/
theorem bannedPenalty_occurrence_counterexample :
    countOccurrences (str "little did") (pyLower doubledPhraseText) = 2 ∧
      bannedPenalty (pyLower doubledPhraseText) = 4/100 ∧
      (4/100 : ℚ) ≠ 2 * (4/100) := by
  refine ⟨by decide, ?_, by norm_num⟩
  rw [bannedPenalty_eq,
    show (bannedPhrases.filter
      (fun p => containsSub p (pyLower doubledPhraseText))).length = 1 from by decide]
  norm_num

/-- C5 amended: each catalog phrase occurring in the text (as a
case-insensitive substring) deducts exactly 0.04 once, regardless of its
number of occurrences — the total banned-phrase deduction is 0.04 times the
number of distinct catalog phrases present. -/
theorem bannedPenalty_per_phrase_not_per_occurrence (contentLower : List Char) :
    bannedPenalty contentLower
      = 4/100 * ((bannedPhrases.filter (fun p => containsSub p contentLower)).length : ℚ) :=
  bannedPenalty_eq contentLower

/-! ## C4 — missing story in context assembly -/

/-- C4 counterexample: for a story id that resolves to nothing,
`get_story_context` returns the empty context dict (`{}`, here `none`) —
it does not fail: the function has no error outcome at all, contradicting
the claim that assembly fails with NotFound rather than returning a
(possibly empty) context value. -/
theorem getStoryContext_missing_story_counterexample :
    getStoryContext emptyDb 1 = none := by decide

/-- C4 amended: for every story id that does not resolve to a stored story,
`get_story_context` returns the empty context dict (`{}`) instead of
failing; callers such as `generate_outline` perform their own existence
check and raise `ValueError` separately. -/
theorem getStoryContext_missing_story_empty (db : Db) (storyId : Nat)
    (h : findStory db storyId = none) :
    getStoryContext db storyId = none := by
  unfold getStoryContext
  rw [h]

theorem getStoryContext_missing_story_empty_witness :
    findStory dbStory1 5 = none ∧ getStoryContext dbStory1 5 = none :=
  ⟨by decide, getStoryContext_missing_story_empty dbStory1 5 (by decide)⟩

/-! ## C3 — outline parser extracting zero items -/

/-- The act-creation fold of `_save_outline_to_db` never touches the
chapters table. -/
theorem actFold_chapters (storyId : Nat) (as : List ActD) :
    ∀ p : Db × List (Nat × Nat),
      ((as.foldl (outlineActStep storyId) p).1).chapters = p.1.chapters := by
  induction as with
  | nil => intro p; rfl
  | cons a as ih =>
      intro p
      rw [List.foldl_cons, ih]
      rfl

/-- When the parser produced no chapters, the story ends up with no
chapter rows: the old ones are deleted and none are inserted. -/
theorem saveOutline_no_chapters (db : Db) (storyId : Nat) (outline : ParseState)
    (h : outline.chapters = []) :
    ((saveOutlineToDb db storyId outline).chapters.filter
      (fun c => c.storyId == storyId)) = [] := by
  unfold saveOutlineToDb
  rw [h]
  simp only [List.foldl_nil]
  rw [actFold_chapters]
  rw [List.filter_filter]
  apply List.filter_eq_nil_iff.mpr
  intro c _
  simp [bne]

/-- C3 amended: when the parser extracts zero structured chapters from the
generation output, `generate_outline` still reports success — the returned
dict has `success = True` with the raw generated text attached under
`raw_text`, and the story's pre-existing chapters have been deleted and
replaced by nothing.  No `MalformedOutput` error exists in the code. -/
theorem generateOutline_zero_items_reports_success (db : Db) (storyId : Nat)
    (story : StoryRec) (text : List Char) (tokens : Nat)
    (hs : findStory db storyId = some story)
    (hz : (parseOutline text).chapters = []) :
    (generateOutline db storyId (.ok text tokens)).toOption =
      some ({success := true, outline := some (parseOutline text), rawText := some text,
             tokensUsed := some tokens, errorKind := none},
            saveOutlineToDb db storyId (parseOutline text)) ∧
    ((saveOutlineToDb db storyId (parseOutline text)).chapters.filter
        (fun c => c.storyId == storyId)) = [] := by
  constructor
  · unfold generateOutline
    rw [hs]
    rfl
  · exact saveOutline_no_chapters db storyId (parseOutline text) hz

/-- C3 counterexample: a generation output ("hello world") from which the
parser extracts zero chapters makes `generate_outline` return a
`success = True` result (with the raw text attached) — not a
MalformedOutput error. -/
theorem generateOutline_zero_items_counterexample :
    (parseOutline (str "hello world")).chapters = [] ∧
      (generateOutline dbStory1 1 (.ok (str "hello world") 5)).toOption =
        some (outlineResZero, dbStory1) ∧
      outlineResZero.success = true := by
  refine ⟨by decide, by decide, by decide⟩

theorem generateOutline_zero_items_witness :
    findStory dbStory1Chap 1 =
        some {storyId := 1, title := str "Mist Harbor", description := none, genre := none,
              targetWordCount := some 80000, targetChapters := some 10} ∧
      (parseOutline (str "nothing to see here")).chapters = [] ∧
      ((saveOutlineToDb dbStory1Chap 1 (parseOutline (str "nothing to see here"))).chapters.filter
          (fun c => c.storyId == 1)) = [] ∧
      (generateOutline dbStory1Chap 1 (.ok (str "nothing to see here") 3)).toOption =
        some ({success := true, outline := some (parseOutline (str "nothing to see here")),
               rawText := some (str "nothing to see here"), tokensUsed := some 3,
               errorKind := none},
              saveOutlineToDb dbStory1Chap 1 (parseOutline (str "nothing to see here"))) := by
  refine ⟨by decide, by decide, ?_, ?_⟩
  · exact (generateOutline_zero_items_reports_success dbStory1Chap 1
      {storyId := 1, title := str "Mist Harbor", description := none, genre := none,
       targetWordCount := some 80000, targetChapters := some 10}
      (str "nothing to see here") 3 (by decide) (by decide)).2
  · exact (generateOutline_zero_items_reports_success dbStory1Chap 1
      {storyId := 1, title := str "Mist Harbor", description := none, genre := none,
       targetWordCount := some 80000, targetChapters := some 10}
      (str "nothing to see here") 3 (by decide) (by decide)).1

/-! ## C9 — revision numbering -/

theorem foldr_max_of_le : ∀ (l : List Nat) (b : Nat), (∀ x ∈ l, x ≤ b) → l.foldr max b = b := by
  intro l
  induction l with
  | nil => intro b _; rfl
  | cons x l ih =>
      intro b h
      have hx : x ≤ b := h x (by simp)
      have := ih b (fun y hy => h y (by simp [hy]))
      simp [List.foldr_cons, this, Nat.max_eq_right hx]

theorem foldr_max_range' (n : Nat) : (List.range' 1 n).foldr max 0 = n := by
  cases n with
  | zero => rfl
  | succ n =>
      rw [List.range'_1_concat, List.foldr_append]
      simp only [List.foldr_cons, List.foldr_nil]
      have : max (1 + n) 0 = 1 + n := Nat.max_eq_left (Nat.zero_le _)
      rw [this, foldr_max_of_le]
      · omega
      · intro x hx
        rcases List.mem_range'.mp hx with ⟨i, hi, rfl⟩
        omega

/-- `_save_chapter_revision` extends the revision numbers [1..n] of a
chapter (whose content is truthy) to [1..n+1]. -/
theorem saveRev_step (db : Db) (ch : ChapterRec) (n : Nat)
    (hc : contentTruthy ch.content = true)
    (hrev : revisionNumbersFor db ch.chapterId = List.range' 1 n) :
    revisionNumbersFor (saveChapterRevision db ch) ch.chapterId = List.range' 1 (n + 1) := by
  unfold saveChapterRevision
  rw [if_pos hc]
  unfold revisionNumbersFor at hrev ⊢
  rw [List.filter_append, List.map_append]
  rw [hrev]
  unfold nextRevisionNumber
  rw [hrev]
  simp only [List.filter_cons, List.filter_nil, beq_self_eq_true, if_true, List.map_cons,
    List.map_nil]
  rw [foldr_max_range', List.range'_1_concat]
  simp [Nat.add_comm]

/-- C9: starting from a database holding no revision for the chapter, the
`N`-th snapshot created by `_save_chapter_revision` carries revision number
`N`: after `n` saves the chapter's revision numbers are exactly
`[1, 2, ..., n]` in creation order — strictly increasing, starting at 1,
never reused. -/
theorem revisionNumbers_sequential (chapterId : Nat) (chs : Nat → ChapterRec) (db0 : Db)
    (hid : ∀ k, (chs k).chapterId = chapterId)
    (hcont : ∀ k, contentTruthy (chs k).content = true)
    (h0 : revisionNumbersFor db0 chapterId = []) :
    ∀ n, revisionNumbersFor (iterSaves chs db0 n) chapterId = List.range' 1 n := by
  intro n
  induction n with
  | zero => simpa using h0
  | succ n ih =>
      have h := saveRev_step (iterSaves chs db0 n) (chs n) n (hcont n)
        (by rw [hid n]; exact ih)
      rw [hid n] at h
      exact h

theorem revisionNumbers_sequential_witness :
    revisionNumbersFor (iterSaves (fun _ => chapterW) emptyDb 3) 7 = List.range' 1 3 ∧
      List.range' 1 3 = [1, 2, 3] :=
  ⟨revisionNumbers_sequential 7 (fun _ => chapterW) emptyDb (fun _ => rfl) (fun _ => rfl)
      (by decide) 3,
   by decide⟩

/-! ## C8 — streaming cancellation persists nothing -/

/-- Consuming at most as many events as there are fragments only executes
`emit` instructions, so the database is untouched. -/
theorem runUntilYields_chunks (target : Nat) (tail : List StreamInstr) :
    ∀ (cs : List (List Char)) (acc : List Char) (n : Nat) (db : Db), n ≤ cs.length →
      (runUntilYields (chunkInstrs target cs acc ++ tail) n db).2 = db := by
  intro cs
  induction cs with
  | nil =>
      intro acc n db h
      have : n = 0 := Nat.le_zero.mp h
      subst this
      simp [runUntilYields]
  | cons c cs ih =>
      intro acc n db h
      cases n with
      | zero => rfl
      | succ n => exact ih (acc ++ c) n db (Nat.succ_le_succ_iff.mp h)

/-- C8: a streaming chapter generation that is cancelled or abandoned after
consuming `n` events, where `n` does not exceed the number of fragments
(i.e. before the stream terminates normally), leaves the database — the
chapter's content, generated flag, word count, and its revision history —
exactly as it was: the persistence block of
`_generate_chapter_stream_enhanced` sits after the fragment loop and only
runs when the terminal `complete` event is produced. -/
theorem streamCancellation_leaves_db_unchanged (chunks : List (List Char))
    (target storyId chapterNumber : Nat) (db : Db) (n : Nat) (h : n ≤ chunks.length) :
    (runUntilYields (streamEnhancedProgram chunks target storyId chapterNumber) n db).2 = db := by
  unfold streamEnhancedProgram
  exact runUntilYields_chunks target _ chunks [] n db h

theorem streamCancellation_leaves_db_unchanged_witness :
    (2 : Nat) ≤ [str "The fog ", str "rolled in."].length ∧
      (runUntilYields
        (streamEnhancedProgram [str "The fog ", str "rolled in."] 2500 1 3) 2
        dbStreamTarget).2 = dbStreamTarget :=
  ⟨by decide,
   streamCancellation_leaves_db_unchanged [str "The fog ", str "rolled in."] 2500 1 3
     dbStreamTarget 2 (by decide)⟩

/-! ## C2 — retry policy across error kinds -/

/-- C2 amended: every `AIProviderError` kind — the non-transient
authentication error included — is handled by the same
retry-with-exponential-backoff clause, because the orchestrator catches the
base class: (i) a provider failing on every attempt yields three requests
with backoff sleeps `[2^0, 2^1] = [1, 2]` and a failure result with
`attempts = 3` carrying the error kind; (ii) a provider failing once and
then succeeding yields a success with `attempts = 2` after one backoff
sleep.  No error kind terminates the request without retry. -/
theorem generateChapterEnhanced_backoff_all_error_kinds
    (kind : ProviderErrorKind) (msg basePrompt text : List Char) (tok : Nat)
    (qualityCheck : Bool) (target storyId chapterNumber : Nat) (db : Db) :
    (generateChapterEnhanced basePrompt (fun _ => .err kind msg) qualityCheck target
        storyId chapterNumber db =
      ({success := false, chapterContent := [], wordCount := 0, qualityScore := none,
        tokensUsed := none, attempts := 3, errorKind := some kind}, db,
       ⟨[basePrompt, basePrompt, basePrompt], [1, 2]⟩)) ∧
    ((generateChapterEnhanced basePrompt
        (fun a => if a = 0 then .err kind msg else .ok text tok) false target
        storyId chapterNumber db).1.success = true ∧
      (generateChapterEnhanced basePrompt
        (fun a => if a = 0 then .err kind msg else .ok text tok) false target
        storyId chapterNumber db).1.attempts = 2 ∧
      (generateChapterEnhanced basePrompt
        (fun a => if a = 0 then .err kind msg else .ok text tok) false target
        storyId chapterNumber db).2.2.sleeps = [1]) :=
  ⟨rfl, rfl, rfl, rfl⟩

/-- C2 counterexample: an authentication error on the first attempt does
not terminate the request — the orchestrator sleeps `2^0 = 1` second and
issues a second request, which here succeeds, so the run reports success
with `attempts = 2` after two requests. -/
theorem generateChapterEnhanced_auth_error_retried :
    (generateChapterEnhanced basePromptW providerAuthThenOk false 2500 1 1 dbGenTarget).1.success
        = true ∧
      (generateChapterEnhanced basePromptW providerAuthThenOk false 2500 1 1 dbGenTarget).1.attempts
        = 2 ∧
      (generateChapterEnhanced basePromptW providerAuthThenOk false 2500 1 1
          dbGenTarget).2.2.sleeps = [1] ∧
      (generateChapterEnhanced basePromptW providerAuthThenOk false 2500 1 1
          dbGenTarget).2.2.requests.length = 2 := by
  refine ⟨rfl, rfl, rfl, rfl⟩

/-! ## C1 — quality-gate regeneration prompt -/

/-- Unfolding one ok-outcome loop iteration that fails the quality gate
with attempts remaining: the adjusted prompt is computed and threaded into
the next iteration — where the loop head will overwrite it. -/
theorem genLoop_ok_regen {b : List Char} {prov : Nat → ProviderOutcome}
    {t s c fuelArg fuel attempt : Nat} {p : List Char} {db : Db}
    {reqs : List (List Char)} {sleeps : List Nat} {text : List Char} {tok : Nat}
    (hf : fuelArg = fuel + 1) (hp : prov attempt = .ok text tok)
    (hq : assessContentQuality text (t : ℚ) < qualityThreshold)
    (ha : attempt < maxRegenerationAttempts - 1) :
    genLoop b prov true t s c fuelArg attempt p db reqs sleeps =
      genLoop b prov true t s c fuel (attempt + 1)
        (adjustPromptForQualityIssues b (assessContentQuality text (t : ℚ)))
        db (reqs ++ [b]) sleeps := by
  subst hf
  simp only [genLoop, hp]
  rw [if_pos ⟨trivial, hq, ha⟩]

/-- Unfolding the final ok-outcome iteration (no attempts remain): the text
is accepted, persisted, and returned with its quality score. -/
theorem genLoop_ok_final {b : List Char} {prov : Nat → ProviderOutcome}
    {t s c fuelArg fuel attempt : Nat} {p : List Char} {db : Db}
    {reqs : List (List Char)} {sleeps : List Nat} {text : List Char} {tok : Nat}
    (hf : fuelArg = fuel + 1) (hp : prov attempt = .ok text tok)
    (ha : ¬ attempt < maxRegenerationAttempts - 1) :
    genLoop b prov true t s c fuelArg attempt p db reqs sleeps =
      ({success := true, chapterContent := text, wordCount := pyWordCount text,
        qualityScore := some (assessContentQuality text (t : ℚ)), tokensUsed := some tok,
        attempts := attempt + 1, errorKind := none},
       persistChapter db s c text, ⟨reqs ++ [b], sleeps⟩) := by
  subst hf
  simp only [genLoop, hp]
  rw [if_neg (fun h => ha h.2.2)]
  simp

/-- C1: with the quality gate enabled and a provider whose output scores
0.4 (< 0.7) on every attempt, all three requests are issued with the
unmodified base prompt — even though `_adjust_prompt_for_quality_issues`
computed an adjusted prompt different from the base prompt after each
failing attempt, the loop head recomputes `prompt` from
`custom_prompt`/the template and discards the adjustment.  The final
attempt is nevertheless accepted: the run reports success with the
below-threshold score 0.4, and the produced (empty) text is persisted
with `is_generated` set. -/
theorem generateChapterEnhanced_adjusted_prompt_dropped :
    (generateChapterEnhanced basePromptW providerAlwaysEmpty true 2500 1 1
        dbGenTarget).2.2.requests = [basePromptW, basePromptW, basePromptW] ∧
      adjustPromptForQualityIssues basePromptW
          (assessContentQuality [] ((2500 : Nat) : ℚ)) ≠ basePromptW ∧
      (generateChapterEnhanced basePromptW providerAlwaysEmpty true 2500 1 1
        dbGenTarget).1.success = true ∧
      (generateChapterEnhanced basePromptW providerAlwaysEmpty true 2500 1 1
        dbGenTarget).1.qualityScore = some (2/5) ∧
      (generateChapterEnhanced basePromptW providerAlwaysEmpty true 2500 1 1
        dbGenTarget).1.attempts = 3 ∧
      ((findChapter (generateChapterEnhanced basePromptW providerAlwaysEmpty true 2500 1 1
          dbGenTarget).2.1 1 1).map (fun ch => (ch.content, ch.isGenerated)))
        = some (some [], true) := by
  have hA : assessContentQuality [] ((2500 : Nat) : ℚ) = 2/5 := by
    rw [assess_empty_eval ((2500 : Nat) : ℚ) (by norm_num)]
  have hq : assessContentQuality [] ((2500 : Nat) : ℚ) < qualityThreshold := by
    rw [hA]; norm_num [qualityThreshold]
  have hrun : generateChapterEnhanced basePromptW providerAlwaysEmpty true 2500 1 1 dbGenTarget =
      ({success := true, chapterContent := [], wordCount := pyWordCount ([] : List Char),
        qualityScore := some (assessContentQuality [] ((2500 : Nat) : ℚ)),
        tokensUsed := some 0, attempts := 3, errorKind := none},
       persistChapter dbGenTarget 1 1 [],
       ⟨[basePromptW, basePromptW, basePromptW], []⟩) := by
    unfold generateChapterEnhanced
    rw [genLoop_ok_regen (show maxRegenerationAttempts = 2 + 1 by rfl)
        (show providerAlwaysEmpty 0 = .ok [] 0 from rfl) hq
        (by norm_num [maxRegenerationAttempts]),
      genLoop_ok_regen (show (2 : Nat) = 1 + 1 by norm_num)
        (show providerAlwaysEmpty 1 = .ok [] 0 from rfl) hq
        (by norm_num [maxRegenerationAttempts]),
      genLoop_ok_final (show (1 : Nat) = 0 + 1 by norm_num)
        (show providerAlwaysEmpty 2 = .ok [] 0 from rfl)
        (by norm_num [maxRegenerationAttempts])]
    rfl
  refine ⟨?_, ?_, ?_, ?_, ?_, ?_⟩
  · rw [hrun]
  · rw [hA]
    unfold adjustPromptForQualityIssues
    rw [if_pos (show (2 : ℚ)/5 < 6/10 by norm_num)]
    decide
  · rw [hrun]
  · rw [hrun, hA]
  · rw [hrun]
  · rw [hrun]
    decide

end NovelApp

